import Mathlib

/-!
Verification of the APIUtils / GameLiftUtils / PlayFabUtils wrapper library.

The JavaScript source is shallowly embedded below.  JavaScript values that
the code distinguishes (null, undefined, objects, strings) are modelled by
small inductive types; string template interpolation is modelled explicitly,
including the conversion of undefined to the text "undefined" and of null to
the text "null".
-/

namespace ApiUtils

/-- The shape of the value stored in an error object's errorDetails property,
as distinguished by the source's guard: absent (undefined), null, some truthy
non-object primitive, or a genuine object, i.e. a mapping from parameter
names to arrays of detail strings in insertion (iteration) order. -/
inductive ErrorDetails where
  | absent
  | null
  | notObject
  | obj (entries : List (String × List String))
deriving DecidableEq, Repr

/-- A vendor error object as read by compileErrorReport: the generic message
property, the PlayFab-specific errorMessage property (none models an absent
property, i.e. the JavaScript value undefined), and the errorDetails
property. -/
structure ErrorObj where
  message : Option String
  errorMessage : Option String
  errorDetails : ErrorDetails
deriving DecidableEq, Repr

/-- JavaScript truthiness of a possibly-absent string: an absent value and
the empty string are falsy, every other string is truthy. -/
def strTruthy : Option String → Bool
  | some s => s != ""
  | none => false

/-- String interpolation of a possibly-absent string inside a template
literal: JavaScript renders undefined as the text "undefined". -/
def interpOpt : Option String → String
  | some s => s
  | none => "undefined"

/-- The return value of compileErrorReport: the source returns either a
string or, when the chosen message property is absent, the value
undefined. -/
inductive JsStr where
  | str (s : String)
  | undefined
deriving DecidableEq, Repr

/-- String interpolation of a JsStr value inside a template literal. -/
def interp : JsStr → String
  | .str s => s
  | .undefined => "undefined"

/-- Lift a possibly-absent string to a JsStr return value. -/
def jsOfOpt : Option String → JsStr
  | some s => .str s
  | none => .undefined

/-- Lines 24-27 of APIUtils.js: choose the display message.  If apiType is
the string PlayFab and errorMessage is truthy, the message variable is
reassigned to errorMessage; otherwise it keeps the generic message. -/
def chooseMessage (e : ErrorObj) (apiType : String) : Option String :=
  if apiType == "PlayFab" && strTruthy e.errorMessage then e.errorMessage
  else e.message

/-- Lines 20-37 of APIUtils.js: compileErrorReport.  A falsy error returns
the empty string; an errorDetails value that is falsy or not an object makes
the function return the chosen message alone; otherwise the details mapping
is flattened into one parameter-colon-detail line per detail string and the
result is the bracketed header followed by a newline and the joined lines. -/
def compileErrorReport (error : Option ErrorObj) (apiType : String) : JsStr :=
  match error with
  | none => .str ""
  | some e =>
    let message := chooseMessage e apiType
    match e.errorDetails with
    | .obj entries =>
      let details :=
        (entries.map (fun p => p.2.map (fun m => p.1 ++ ": " ++ m))).flatten
      .str ("[" ++ apiType ++ " API Error] " ++ interpOpt message ++ "\n"
        ++ String.intercalate "\n" details)
    | _ => jsOfOpt message

/-- The JavaScript value passed as the error argument of handleApiResponse:
null, undefined, or an error object. -/
inductive ErrVal where
  | null
  | undefined
  | obj (e : ErrorObj)
deriving DecidableEq, Repr

/-- The JavaScript value passed as the result argument of handleApiResponse:
null, undefined, or an opaque vendor payload identified by a tag. -/
inductive ResVal where
  | null
  | undefined
  | payload (s : String)
deriving DecidableEq, Repr

/-- How the promise given to handleApiResponse is settled. -/
inductive Outcome where
  | resolved (r : ResVal)
  | rejected (e : ErrVal)
deriving DecidableEq, Repr

/-- View the error argument as the argument of compileErrorReport: null and
undefined are falsy, an object is passed through. -/
def errToOpt : ErrVal → Option ErrorObj
  | .obj e => some e
  | _ => none

/-- String interpolation of the error argument inside a template literal:
null renders as "null", undefined as "undefined", and a plain object via its
default toString. -/
def errTemplate : ErrVal → String
  | .null => "null"
  | .undefined => "undefined"
  | .obj _ => "[object Object]"

/-- Lines 51-66 of APIUtils.js: handleApiResponse.  The switch on true takes
the first matching case: result strictly unequal to null logs the success
line and resolves with result; else error strictly unequal to null logs the
failure line with the compiled report and rejects with error; else the
default case logs the unxpected line and rejects with the (null) error.  The
returned pair is the single console log line and the promise settlement. -/
def handleApiResponse (apiName apiType : String) (error : ErrVal)
    (result : ResVal) : String × Outcome :=
  if result ≠ ResVal.null then
    (apiName ++ " API call successful", .resolved result)
  else if error ≠ ErrVal.null then
    (apiName ++ " API call failed: "
      ++ interp (compileErrorReport (errToOpt error) apiType),
     .rejected error)
  else
    (apiName ++ " API call unxpected error: " ++ errTemplate error,
     .rejected error)

end ApiUtils

namespace Wrappers

open ApiUtils

/-- One exported wrapper function: its operation name, the file it lives in,
its API type tag, and whether its completion callbacks route the outcome
through handleApiResponse (true) or resolve/reject the promise directly
(false). -/
structure Wrapper where
  name : String
  srcFile : String
  apiType : String
  usesDispatcher : Bool
deriving DecidableEq, Repr

/-- GameLiftUtils.js lines 170-189: the only wrapper whose then/catch
handlers call resolve and reject directly instead of handleApiResponse. -/
def createGameSessionQueueW : Wrapper :=
  ⟨"createGameSessionQueue", "GameLiftUtils.js", "GameLift", false⟩

/-- The exported vendor-operation wrapper functions of GameLiftUtils.js and
PlayFabUtils.js, transcribed from the two module.exports lists (re-exported
SDK objects and the sleep helper are not wrapper functions). -/
def wrappers : List Wrapper :=
  [ ⟨"createPlayerSession", "GameLiftUtils.js", "GameLift", true⟩,
    ⟨"createGameSession", "GameLiftUtils.js", "GameLift", true⟩,
    createGameSessionQueueW,
    ⟨"describeGameSession", "GameLiftUtils.js", "GameLift", true⟩,
    ⟨"describeGameSessions", "GameLiftUtils.js", "GameLift", true⟩,
    ⟨"updateRuntimeConfiguration", "GameLiftUtils.js", "GameLift", true⟩,
    ⟨"authenticateSessionTicket", "PlayFabUtils.js", "PlayFab", true⟩,
    ⟨"getEntityToken", "PlayFabUtils.js", "PlayFab", true⟩,
    ⟨"validateEntityToken", "PlayFabUtils.js", "PlayFab", true⟩,
    ⟨"getTitleData", "PlayFabUtils.js", "PlayFab", true⟩,
    ⟨"getLeaderboardAroundUser", "PlayFabUtils.js", "PlayFab", true⟩,
    ⟨"listVirtualCurrencyTypes", "PlayFabUtils.js", "PlayFab", true⟩,
    ⟨"addUserVirtualCurrency", "PlayFabUtils.js", "PlayFab", true⟩,
    ⟨"subtractUserVirtualCurrency", "PlayFabUtils.js", "PlayFab", true⟩,
    ⟨"updatePlayerStatistics", "PlayFabUtils.js", "PlayFab", true⟩ ]

/-- Completion behavior of a wrapper once the vendor call settles with a
given error/result pair: a dispatcher-routed wrapper forwards the pair to
handleApiResponse, producing that single log line and its settlement; the
direct wrapper emits no log and resolves with result on the then path
(error null) or rejects with error on the catch path. -/
def wrapperComplete (w : Wrapper) (error : ErrVal) (result : ResVal) :
    List String × Outcome :=
  if w.usesDispatcher then
    let r := handleApiResponse w.name w.apiType error result
    ([r.1], r.2)
  else if error = ErrVal.null then ([], .resolved result)
  else ([], .rejected error)

end Wrappers

namespace ApiUtils

/-- Spec-side formulation of the detail lines of an error report: for every
(parameter name, detail-message-sequence) pair, one line per detail message
formatted as parameter, colon, space, detail, preserving the mapping's
iteration order and each sequence's order. -/
def specDetailLines : List (String × List String) → List String
  | [] => []
  | (p, msgs) :: rest => msgs.map (fun m => p ++ ": " ++ m) ++ specDetailLines rest

theorem flatten_map_eq_specDetailLines (entries : List (String × List String)) :
    (entries.map (fun p => p.2.map (fun m => p.1 ++ ": " ++ m))).flatten
      = specDetailLines entries := by
  induction entries with
  | nil => rfl
  | cons hd tl ih => simp [specDetailLines, ih]

/-- Claim C1: whenever the result argument is strictly unequal to null, the
dispatcher logs the success line naming the operation and resolves the
promise with the result, whatever the error argument is (a simultaneous
non-null error is silently dropped): the result case is checked first and
the first match wins. -/
theorem claim_C1_success_priority (apiName apiType : String) (error : ErrVal)
    (result : ResVal) (h : result ≠ ResVal.null) :
    handleApiResponse apiName apiType error result
      = (apiName ++ " API call successful", .resolved result) := by
  simp [handleApiResponse, h]

theorem claim_C1_witness :
    handleApiResponse "op" "GameLift"
        (.obj ⟨some "x", none, .absent⟩) (.payload "ok")
      = ("op API call successful", .resolved (.payload "ok")) :=
  claim_C1_success_priority "op" "GameLift" _ _ (by decide)

/-- Claim C2: for every error whose errorDetails is a structured mapping,
compileErrorReport returns the bracketed header with the chosen message,
followed by a newline and one parameter-colon-detail line per detail string
joined by newlines, preserving iteration and sequence order; when the
mapping is empty the result is the header plus a trailing newline and
nothing after it. -/
theorem claim_C2_details_report (e : ErrorObj) (apiType : String)
    (entries : List (String × List String))
    (h : e.errorDetails = .obj entries) :
    compileErrorReport (some e) apiType
        = .str ("[" ++ apiType ++ " API Error] "
            ++ interpOpt (chooseMessage e apiType) ++ "\n"
            ++ String.intercalate "\n" (specDetailLines entries))
    ∧ (entries = [] →
        compileErrorReport (some e) apiType
          = .str ("[" ++ apiType ++ " API Error] "
              ++ interpOpt (chooseMessage e apiType) ++ "\n")) := by
  constructor
  · simp [compileErrorReport, h, flatten_map_eq_specDetailLines]
  · intro he
    simp [compileErrorReport, h, he, String.intercalate]

theorem claim_C2_witness :
    compileErrorReport
        (some ⟨some "msg", none, .obj [("Foo", ["bad"]), ("Bar", ["wrong", "missing"])]⟩)
        "X"
      = .str "[X API Error] msg\nFoo: bad\nBar: wrong\nBar: missing" := by
  have h := (claim_C2_details_report
    ⟨some "msg", none, .obj [("Foo", ["bad"]), ("Bar", ["wrong", "missing"])]⟩
    "X" [("Foo", ["bad"]), ("Bar", ["wrong", "missing"])] rfl).1
  exact h.trans (by decide)

/-- Claim C3: when the result is null and the error is non-null, the
dispatcher logs the failure line containing the operation name and the
compiled error report, and rejects the promise with the original error
value, unchanged. -/
theorem claim_C3_failure_branch (apiName apiType : String) (error : ErrVal)
    (h : error ≠ ErrVal.null) :
    handleApiResponse apiName apiType error .null
      = (apiName ++ " API call failed: "
          ++ interp (compileErrorReport (errToOpt error) apiType),
         .rejected error) := by
  simp [handleApiResponse, h]

theorem claim_C3_witness :
    handleApiResponse "op" "GameLift" (.obj ⟨some "bad", none, .absent⟩) .null
      = ("op API call failed: bad", .rejected (.obj ⟨some "bad", none, .absent⟩)) := by
  have h := claim_C3_failure_branch "op" "GameLift"
    (.obj ⟨some "bad", none, .absent⟩) (by decide)
  exact h.trans (by decide)

/-- Claim C7: when both the error and the result are null, the dispatcher
logs the line containing "unxpected" (rendering the null error as the text
"null") and rejects the promise with the null error value itself, without
synthesizing a distinct error. -/
theorem claim_C7_both_null (apiName apiType : String) :
    handleApiResponse apiName apiType .null .null
      = (apiName ++ " API call unxpected error: null", .rejected .null) := by
  have h : (" API call unxpected error: " ++ "null" : String)
      = " API call unxpected error: null" := rfl
  simp [handleApiResponse, errTemplate, String.append_assoc, h]

/-- Claim C9: for an absent (null or undefined, hence falsy) error argument
and every apiType, compileErrorReport returns the empty string. -/
theorem claim_C9_absent_error (apiType : String) :
    compileErrorReport none apiType = .str "" := rfl

/-- Claim C10: when the result argument is undefined rather than null, the
strict inequality with null holds, so the dispatcher takes the success
branch — logging the success line and resolving the promise with
undefined — for every error argument, including a non-null error object. -/
theorem claim_C10_undefined_result (apiName apiType : String) (error : ErrVal) :
    handleApiResponse apiName apiType error .undefined
      = (apiName ++ " API call successful", .resolved .undefined) := by
  simp [handleApiResponse]

end ApiUtils

namespace ApiUtils

/-- Claim C6: the display message chosen by compileErrorReport (lines 24-27
of APIUtils.js) is errorMessage exactly when apiType is "PlayFab" and
errorMessage is truthy (present and non-empty); in every other case it is
the generic message field. -/
theorem claim_C6_chosen_message (e : ErrorObj) (apiType : String) :
    (apiType = "PlayFab" → strTruthy e.errorMessage = true →
      chooseMessage e apiType = e.errorMessage)
    ∧ ((apiType ≠ "PlayFab" ∨ strTruthy e.errorMessage = false) →
      chooseMessage e apiType = e.message) := by
  constructor
  · intro h1 h2
    simp [chooseMessage, h1, h2]
  · intro h
    rcases h with h | h
    · simp [chooseMessage, h]
    · simp [chooseMessage, h]

theorem claim_C6_witness :
    chooseMessage ⟨some "gen", some "pf", .absent⟩ "PlayFab" = some "pf"
    ∧ chooseMessage ⟨some "gen", some "pf", .absent⟩ "GameLift" = some "gen" :=
  ⟨(claim_C6_chosen_message ⟨some "gen", some "pf", .absent⟩ "PlayFab").1 rfl rfl,
   (claim_C6_chosen_message ⟨some "gen", some "pf", .absent⟩ "GameLift").2
     (Or.inl (by decide))⟩

/-- Claim C8: for every error whose errorDetails is absent, null, or a
truthy non-object value, compileErrorReport returns the chosen display
message alone (with no header and no detail lines). -/
theorem claim_C8_message_alone (e : ErrorObj) (apiType : String)
    (h : e.errorDetails = .absent ∨ e.errorDetails = .null
      ∨ e.errorDetails = .notObject) :
    compileErrorReport (some e) apiType = jsOfOpt (chooseMessage e apiType) := by
  rcases h with h | h | h <;> simp [compileErrorReport, h]

theorem claim_C8_witness :
    compileErrorReport (some ⟨some "gen", none, ErrorDetails.null⟩) "GameLift"
      = .str "gen" := by
  have h := claim_C8_message_alone ⟨some "gen", none, .null⟩ "GameLift"
    (Or.inr (Or.inl rfl))
  exact h.trans (by decide)

end ApiUtils

namespace Wrappers

/-- Claim C4 fails as stated: the number of exported wrapper functions whose
promise is settled directly, without routing through handleApiResponse, is
one, not two. -/
theorem claim_C4_counterexample :
    (wrappers.filter (fun w => !w.usesDispatcher)).length = 1
    ∧ (wrappers.filter (fun w => !w.usesDispatcher)).length ≠ 2 := by
  decide

/-- Claim C4 amended: exactly one exported wrapper function — the
session-queue operation createGameSessionQueue — resolves or rejects its
promise directly from the vendor outcome without routing through the
dispatcher; every other exported wrapper routes through it. -/
theorem claim_C4_single_bypass :
    wrappers.filter (fun w => !w.usesDispatcher) = [createGameSessionQueueW]
    ∧ ∀ w ∈ wrappers,
        w.name ≠ "createGameSessionQueue" → w.usesDispatcher = true := by
  decide

/-- Claim C5 fails as stated: a completed createGameSessionQueue call emits
no console log line at all, not exactly one. -/
theorem claim_C5_counterexample :
    (wrapperComplete createGameSessionQueueW ApiUtils.ErrVal.null
        (ApiUtils.ResVal.payload "GameSessionQueue")).1 = []
    ∧ (wrapperComplete createGameSessionQueueW ApiUtils.ErrVal.null
        (ApiUtils.ResVal.payload "GameSessionQueue")).1.length ≠ 1 := by
  decide

/-- Claim C5 amended: every dispatcher-routed wrapper function emits exactly
one console log line per completed call, produced by the dispatcher; the one
direct wrapper, createGameSessionQueue, emits none. -/
theorem claim_C5_dispatcher_logs_once (w : Wrapper) (hw : w ∈ wrappers)
    (hd : w.usesDispatcher = true) (error : ApiUtils.ErrVal)
    (result : ApiUtils.ResVal) :
    (wrapperComplete w error result).1.length = 1 := by
  simp [wrapperComplete, hd]

theorem claim_C5_witness :
    (wrapperComplete ⟨"authenticateSessionTicket", "PlayFabUtils.js", "PlayFab", true⟩
        ApiUtils.ErrVal.null (ApiUtils.ResVal.payload "r")).1.length = 1 :=
  claim_C5_dispatcher_logs_once
    ⟨"authenticateSessionTicket", "PlayFabUtils.js", "PlayFab", true⟩
    (by decide) rfl ApiUtils.ErrVal.null (ApiUtils.ResVal.payload "r")

end Wrappers
